import Mathlib

/-
Verification of the subgraphGenerator repository (`subgraph_wizard` Python
package) against its natural-language specification.

The Python sources are shallowly embedded as executable Lean definitions.
Python strings are modelled as `String` and string primitives (`lower`,
`capitalize`, `split`, `join`, slicing) are re-implemented on the
code-point list `String.data` so that all definitions reduce inside the
kernel.  Python `dict.get` with possibly-missing keys is modelled with
`Option` fields, and Python truthiness of strings/lists is the test
against `""` / `[]`.
-/

namespace SubgraphWizard

/-! ## Python string primitives -/

/-- Python `str.lower()` (ASCII range; the repository only lowercases
identifiers and hex addresses). -/
def pyLower (s : String) : String :=
  String.mk (s.data.map Char.toLower)

/-- Python `str.upper()` applied to a single character, as used by
`func_name[0].upper()` in the source. -/
def pyUpperChar (c : Char) : Char := c.toUpper

/-- Python `str.capitalize()`: the first character is uppercased and every
remaining character is lowercased; the empty string is unchanged. -/
def pyCapitalize (s : String) : String :=
  match s.data with
  | [] => ""
  | c :: cs => String.mk (c.toUpper :: cs.map Char.toLower)

/-- Splitting a character list at every occurrence of the separator
character; models Python `str.split(sep)` for a one-character separator
(`"".split(sep) == [""]`, adjacent separators yield empty segments). -/
def splitOnChar (c : Char) : List Char → List (List Char)
  | [] => [[]]
  | x :: xs =>
    if x = c then [] :: splitOnChar c xs
    else
      match splitOnChar c xs with
      | [] => [[x]]
      | g :: gs => (x :: g) :: gs

/-- Python `name.split("_")`. -/
def pySplitUnderscore (s : String) : List String :=
  (splitOnChar '_' s.data).map String.mk

/-- Python `sep.join(parts)`. -/
def pyJoin (sep : String) : List String → String
  | [] => ""
  | x :: xs => xs.foldl (fun acc y => acc ++ sep ++ y) x

/-- Python ASCII whitespace for `str.strip()`. -/
def pyIsSpace (c : Char) : Bool :=
  c = ' ' || c = '\t' || c = '\n' || c = '\x0d' || c = '\x0b' || c = '\x0c'

/-- Python `str.strip()` with no argument (whitespace at both ends). -/
def pyStrip (s : String) : String :=
  String.mk (((s.data.dropWhile pyIsSpace).reverse.dropWhile pyIsSpace).reverse)

/-- Python `s.endswith(t)`. -/
def pyEndsWith (s t : String) : Bool :=
  t.data.isSuffixOf s.data

/-- Python `c in s` for a single character. -/
def pyContainsChar (s : String) (c : Char) : Bool :=
  s.data.contains c

/-- Python `s[:-n]` (drop the last `n` code points). -/
def pyDropRight (s : String) (n : Nat) : String :=
  String.mk (s.data.take (s.data.length - n))

/-- Python `s.split(sep)[0]` for a one-character separator: the segment
before the first occurrence of the separator. -/
def pyTakeUntil (s : String) (c : Char) : String :=
  String.mk (s.data.takeWhile (· ≠ c))

/-- Python `s[:n]` (first `n` code points). -/
def pyTake (s : String) (n : Nat) : String :=
  String.mk (s.data.take n)

/-- Python `len(s)` (number of code points). -/
def pyLen (s : String) : Nat := s.data.length

/-! ## abi/utils.py — naming utilities -/

/-- Source `abi/utils.py`, `to_camel_case`: split on underscores, lowercase
the first segment, append `str.capitalize()` of every later segment. -/
def to_camel_case (name : String) : String :=
  if name = "" then name
  else
    match pySplitUnderscore name with
    | [] => ""
    | p :: rest => rest.foldl (fun acc part => acc ++ pyCapitalize part) (pyLower p)

/-- The conversion exactly as the specification words it: later segments
get their first letter uppercased "while leaving the rest of that
segment's characters unchanged".  Written from the spec for comparison
with `to_camel_case`. -/
def to_camel_case_spec (name : String) : String :=
  match pySplitUnderscore name with
  | [] => ""
  | p :: rest =>
    rest.foldl
      (fun acc part =>
        acc ++ (match part.data with
                | [] => ""
                | c :: cs => String.mk (c.toUpper :: cs)))
      (pyLower p)

/-- The amended description of `to_camel_case`: later segments get their
first letter uppercased and the rest of the segment lowercased
(Python `str.capitalize()` semantics). -/
def to_camel_case_amended (name : String) : String :=
  match pySplitUnderscore name with
  | [] => ""
  | p :: rest => pyLower p ++ String.join (rest.map pyCapitalize)

/-- Source `abi/utils.py`, `get_handler_name`. -/
def get_handler_name (event_name : String) : String :=
  "handle" ++ event_name

/-- Source `abi/utils.py`, `get_entity_name`. -/
def get_entity_name (event_name : String) : String :=
  event_name

/-! ## abi/utils.py — type mapper -/

/-- Source `abi/utils.py`, `SOLIDITY_TO_GRAPH_TYPES` lookup table. -/
def SOLIDITY_TO_GRAPH_TYPES : List (String × String) :=
  [("int8", "Int"), ("int16", "Int"), ("int24", "Int"), ("int32", "Int"),
   ("int64", "BigInt"), ("int128", "BigInt"), ("int256", "BigInt"), ("int", "BigInt"),
   ("uint8", "Int"), ("uint16", "Int"), ("uint24", "Int"), ("uint32", "Int"),
   ("uint64", "BigInt"), ("uint128", "BigInt"), ("uint256", "BigInt"), ("uint", "BigInt"),
   ("address", "Bytes"),
   ("bool", "Boolean"),
   ("bytes", "Bytes"), ("bytes1", "Bytes"), ("bytes2", "Bytes"), ("bytes3", "Bytes"),
   ("bytes4", "Bytes"), ("bytes8", "Bytes"), ("bytes16", "Bytes"), ("bytes32", "Bytes"),
   ("string", "String")]

/-- Key lookup in the table (Python `solidity_type in SOLIDITY_TO_GRAPH_TYPES`
followed by indexing). -/
def lookupGraphType (s : String) : Option String :=
  (SOLIDITY_TO_GRAPH_TYPES.find? (fun p => p.1 = s)).map (·.2)

/-- The `for size in range(1, 33)` loop of `solidity_type_to_graph`. -/
def bytesLoopSizes : List Nat :=
  List.range' 1 32

/-- The explicit width list of the `intN`/`uintN` fallback loop of
`solidity_type_to_graph`. -/
def intLoopSizes : List Nat :=
  [8, 16, 24, 32, 40, 48, 56, 64, 72, 80, 88, 96, 104, 112, 120, 128, 136,
   144, 152, 160, 168, 176, 184, 192, 200, 208, 216, 224, 232, 240, 248, 256]

/-- Source `abi/utils.py`, `solidity_type_to_graph`.  The Python function
recurses on the element type of array types; the recursion is driven here
by a fuel argument bounded by the string length (each recursive call
strictly shrinks the string, see `solidity_type_to_graph`). -/
def solidityTypeToGraphFuel : Nat → String → String
  | 0, _ => "Bytes"
  | fuel + 1, s =>
    if pyEndsWith s "[]" then
      "[" ++ solidityTypeToGraphFuel fuel (pyDropRight s 2) ++ "!]"
    else if pyContainsChar s '[' && pyContainsChar s ']' then
      "[" ++ solidityTypeToGraphFuel fuel (pyTakeUntil s '[') ++ "!]"
    else
      match lookupGraphType s with
      | some g => g
      | none =>
        if bytesLoopSizes.any (fun n => s = "bytes" ++ toString n) then "Bytes"
        else
          match intLoopSizes.find? (fun n => s = "int" ++ toString n || s = "uint" ++ toString n) with
          | some n => if n > 32 then "BigInt" else "Int"
          | none => "Bytes"

/-- Source `abi/utils.py`, `solidity_type_to_graph` (fuel instantiated so
that it can never run out: every recursive call is on a strictly shorter
string). -/
def solidity_type_to_graph (s : String) : String :=
  solidityTypeToGraphFuel (s.data.length + 1) s

/-! ## abi/utils.py — event extraction -/

/-- A value stored in one of the event-parameter dictionaries built by
`extract_events` (they hold strings and booleans). -/
inductive PyVal where
  | str (s : String)
  | bool (b : Bool)
deriving DecidableEq, Repr

/-- One entry of an ABI `inputs` array, keeping only the keys the source
reads (`name`, `type`, `indexed`); a `none` field is an absent key. -/
structure AbiInput where
  name : Option String := none
  ty : Option String := none
  indexed : Option Bool := none
deriving DecidableEq, Repr

/-- One ABI entry, keeping only the keys the source reads
(`type`, `name`, `inputs`); a `none` field is an absent key. -/
structure AbiEntry where
  ty : Option String := none
  name : Option String := none
  inputs : Option (List AbiInput) := none
deriving DecidableEq, Repr

/-- An event-parameter dictionary as built by `extract_events`
(keys `name`, `solidity_type`, `graph_type`, `indexed`). -/
structure EventParam where
  name : String
  solidity_type : String
  graph_type : String
  indexed : Bool
deriving DecidableEq, Repr

/-- Python `dict.get(key)` on an `EventParam` dictionary: the four keys
written by `extract_events` are present, every other key is absent. -/
def EventParam.get (p : EventParam) : String → Option PyVal
  | "name" => some (.str p.name)
  | "solidity_type" => some (.str p.solidity_type)
  | "graph_type" => some (.str p.graph_type)
  | "indexed" => some (.bool p.indexed)
  | _ => none

/-- An event dictionary as built by `extract_events`. -/
structure Event where
  name : String
  params : List EventParam
  signature : String
deriving DecidableEq, Repr

/-- Source `abi/utils.py`, `build_event_signature`: the returned string
joins the raw `type` strings of the inputs.  (The function also builds a
`param_types` list annotating indexed parameters, but that list is dead
code: the return expression recomputes the raw types.) -/
def build_event_signature (event_name : String) (inputs : List AbiInput) : String :=
  event_name ++ "(" ++ pyJoin "," (inputs.map (fun inp => inp.ty.getD "")) ++ ")"

/-- The inner parameter loop of `extract_events`: each input appends one
parameter dictionary; an input with a missing or empty `name` gets the
synthesized name `param<len(params)>`. -/
def processInputs (inputs : List AbiInput) : List EventParam :=
  inputs.foldl
    (fun params inp =>
      let param_name0 := inp.name.getD ""
      let param_type := inp.ty.getD ""
      let indexed := inp.indexed.getD false
      let param_name := if param_name0 = "" then "param" ++ toString params.length else param_name0
      params ++ [{ name := param_name, solidity_type := param_type,
                   graph_type := solidity_type_to_graph param_type, indexed := indexed }])
    []

/-- Source `abi/utils.py`, `extract_events`: keep entries whose `type` is
`"event"`, skip events with a missing or empty name (warning only), and
build the parameter list and signature for every kept event. -/
def extract_events (abi : List AbiEntry) : List Event :=
  abi.foldl
    (fun events entry =>
      if entry.ty = some "event" then
        let event_name := entry.name.getD ""
        let inputs := entry.inputs.getD []
        if event_name = "" then events
        else
          events ++ [{ name := event_name,
                       params := processInputs inputs,
                       signature := build_event_signature event_name inputs }]
      else events)
    []

/-! ## config/model.py — data model -/

/-- Source `config/model.py`, `ContractConfig`. -/
structure ContractConfig where
  name : String
  address : String
  start_block : Int
  abi_path : String
  index_events : Bool := true
  call_handlers : Option (List String) := none
  block_handler : Bool := false
deriving DecidableEq, Repr

/-- The dictionary produced by `ContractConfig.to_dict` (a `none` field is
an absent key; `asdict` always emits the other keys). -/
structure ContractDict where
  name : String
  address : String
  start_block : Int
  abi_path : String
  index_events : Bool
  call_handlers : Option (List String)
  block_handler : Option Bool
deriving DecidableEq, Repr

/-- Source `ContractConfig.to_dict`: `asdict`, then the `call_handlers`
key is deleted when its value is `None` and the `block_handler` key is
deleted when its value is falsy. -/
def ContractConfig.to_dict (c : ContractConfig) : ContractDict :=
  { name := c.name, address := c.address, start_block := c.start_block,
    abi_path := c.abi_path, index_events := c.index_events,
    call_handlers := c.call_handlers,
    block_handler := if c.block_handler then some c.block_handler else none }

/-- Source `ContractConfig.from_dict` (applied to dictionaries of the
shape `to_dict` emits; `data.get` of an absent key yields the default). -/
def ContractConfig.from_dict (d : ContractDict) : ContractConfig :=
  { name := d.name, address := d.address, start_block := d.start_block,
    abi_path := d.abi_path, index_events := d.index_events,
    call_handlers := d.call_handlers,
    block_handler := d.block_handler.getD false }

/-- Source `config/model.py`, `TemplateConfig`. -/
structure TemplateConfig where
  name : String
  abi_path : String
  event_handlers : List String
  source_contract : String
  source_event : String
  index_events : Bool := true
  call_handlers : Option (List String) := none
  block_handler : Bool := false
deriving DecidableEq, Repr

/-- The dictionary produced by `TemplateConfig.to_dict`. -/
structure TemplateDict where
  name : String
  abi_path : String
  event_handlers : List String
  source_contract : String
  source_event : String
  index_events : Bool
  call_handlers : Option (List String)
  block_handler : Option Bool
deriving DecidableEq, Repr

/-- Source `TemplateConfig.to_dict`: the `call_handlers` key is emitted
only when the value is truthy (so a present-but-empty list is dropped),
and `block_handler` only when true. -/
def TemplateConfig.to_dict (t : TemplateConfig) : TemplateDict :=
  { name := t.name, abi_path := t.abi_path, event_handlers := t.event_handlers,
    source_contract := t.source_contract, source_event := t.source_event,
    index_events := t.index_events,
    call_handlers := match t.call_handlers with
      | some l => if l ≠ [] then some l else none
      | none => none,
    block_handler := if t.block_handler then some t.block_handler else none }

/-- Source `TemplateConfig.from_dict` (applied to `to_dict`-shaped
dictionaries). -/
def TemplateConfig.from_dict (d : TemplateDict) : TemplateConfig :=
  { name := d.name, abi_path := d.abi_path, event_handlers := d.event_handlers,
    source_contract := d.source_contract, source_event := d.source_event,
    index_events := d.index_events,
    call_handlers := d.call_handlers,
    block_handler := d.block_handler.getD false }

/-- Source `config/model.py`, `EntityRelationship`. -/
structure EntityRelationship where
  from_entity : String
  to_entity : String
  relation_type : String
  field_name : String
  derived_from : Option String := none
deriving DecidableEq, Repr

/-- The dictionary produced by `EntityRelationship.to_dict`. -/
structure RelationshipDict where
  from_entity : String
  to_entity : String
  relation_type : String
  field_name : String
  derived_from : Option String
deriving DecidableEq, Repr

/-- Source `EntityRelationship.to_dict`: the `derived_from` key is emitted
only when the value is truthy (a present-but-empty string is dropped). -/
def EntityRelationship.to_dict (r : EntityRelationship) : RelationshipDict :=
  { from_entity := r.from_entity, to_entity := r.to_entity,
    relation_type := r.relation_type, field_name := r.field_name,
    derived_from := match r.derived_from with
      | some s => if s ≠ "" then some s else none
      | none => none }

/-- Source `EntityRelationship.from_dict`. -/
def EntityRelationship.from_dict (d : RelationshipDict) : EntityRelationship :=
  { from_entity := d.from_entity, to_entity := d.to_entity,
    relation_type := d.relation_type, field_name := d.field_name,
    derived_from := d.derived_from }

/-- Source `config/model.py`, `SubgraphConfig`. -/
structure SubgraphConfig where
  name : String
  network : String
  output_dir : String
  mappings_mode : String
  contracts : List ContractConfig := []
  config_version : Int := 1
  complexity : String := "basic"
  templates : List TemplateConfig := []
  entity_relationships : List EntityRelationship := []
deriving DecidableEq, Repr

/-- The dictionary produced by `SubgraphConfig.to_dict` (the `templates`
and `entity_relationships` keys are only present when non-empty). -/
structure SubgraphDict where
  config_version : Int
  name : String
  network : String
  output_dir : String
  complexity : String
  mappings_mode : String
  contracts : List ContractDict
  templates : Option (List TemplateDict)
  entity_relationships : Option (List RelationshipDict)
deriving DecidableEq, Repr

/-- Source `SubgraphConfig.to_dict`: bumps the serialized
`config_version` to at least 2 for intermediate and at least 3 for
advanced complexity, and omits empty advanced lists. -/
def SubgraphConfig.to_dict (c : SubgraphConfig) : SubgraphDict :=
  let version :=
    if c.complexity = "intermediate" ∧ c.config_version < 2 then 2
    else if c.complexity = "advanced" ∧ c.config_version < 3 then 3
    else c.config_version
  { config_version := version, name := c.name, network := c.network,
    output_dir := c.output_dir, complexity := c.complexity,
    mappings_mode := c.mappings_mode,
    contracts := c.contracts.map ContractConfig.to_dict,
    templates := if c.templates ≠ [] then some (c.templates.map TemplateConfig.to_dict) else none,
    entity_relationships :=
      if c.entity_relationships ≠ []
      then some (c.entity_relationships.map EntityRelationship.to_dict) else none }

/-- Source `SubgraphConfig.from_dict` (applied to `to_dict`-shaped
dictionaries; absent optional keys fall back to their defaults). -/
def SubgraphConfig.from_dict (d : SubgraphDict) : SubgraphConfig :=
  { name := d.name, network := d.network, output_dir := d.output_dir,
    mappings_mode := d.mappings_mode,
    contracts := d.contracts.map ContractConfig.from_dict,
    config_version := d.config_version,
    complexity := d.complexity,
    templates := (d.templates.getD []).map TemplateConfig.from_dict,
    entity_relationships :=
      (d.entity_relationships.getD []).map EntityRelationship.from_dict }

/-! ## config/validation.py -/

/-- Keys of `networks.py`, `SUPPORTED_NETWORKS`. -/
def SUPPORTED_NETWORK_NAMES : List String :=
  ["ethereum", "optimism", "arbitrum"]

/-- Source `validation.py`, `SUPPORTED_CONFIG_VERSIONS`. -/
def SUPPORTED_CONFIG_VERSIONS : List Int := [1, 2, 3]

/-- Source `validation.py`, `VALID_MAPPING_MODES`. -/
def VALID_MAPPING_MODES : List String := ["stub", "auto"]

/-- Source `validation.py`, `VALID_COMPLEXITY_LEVELS`. -/
def VALID_COMPLEXITY_LEVELS : List String := ["basic", "intermediate", "advanced"]

/-- Source `validation.py`, `VALID_RELATION_TYPES`. -/
def VALID_RELATION_TYPES : List String := ["one_to_one", "one_to_many", "many_to_many"]

/-- Hexadecimal character test for the `ADDRESS_PATTERN` regex class. -/
def isHexChar (c : Char) : Bool :=
  ('0' ≤ c && c ≤ '9') || ('a' ≤ c && c ≤ 'f') || ('A' ≤ c && c ≤ 'F')

/-- Source `validation.py`, `ADDRESS_PATTERN` (`^0x[a-fA-F0-9]{40}$`). -/
def matchesAddressPattern (s : String) : Bool :=
  match s.data with
  | '0' :: 'x' :: rest => rest.length = 40 && rest.all isHexChar
  | _ => false

/-- Python `not s or not s.strip()` as used by every empty/blank check in
`validation.py`. -/
def pyBlank (s : String) : Bool :=
  s = "" || pyStrip s = ""

/-- Running validators over a list: the first raised `ValidationError`
aborts the Python `for` loop. -/
def firstErr {α : Type} (f : α → Except String Unit) : List α → Except String Unit
  | [] => .ok ()
  | x :: xs =>
    match f x with
    | .error e => .error e
    | .ok _ => firstErr f xs

/-- Python `sorted` on strings (lexicographic). -/
def pySorted (l : List String) : List String :=
  l.mergeSort (fun a b => a ≤ b)

/-- Python `contract_names.count(name) > 1` style duplicate listing
followed by `set(...)`; modelled with first-occurrence deduplication
(the CPython set iteration order is unspecified, and no claim depends on
the order of the joined tail). -/
def duplicateItems (l : List String) : List String :=
  (l.filter (fun n => decide (1 < l.count n))).dedup

/-- Python `len(l) != len(set(l))`. -/
def hasDuplicates (l : List String) : Bool :=
  l.dedup.length ≠ l.length

/-- Source `validation.py`, `validate_address`. -/
def validate_address (address : String) (contract_name : String) : Except String Unit :=
  if ¬ matchesAddressPattern address then
    .error ("Invalid address for contract '" ++ contract_name ++ "': '" ++ address ++
            "'. Address must be '0x' followed by 40 hexadecimal characters.")
  else .ok ()

/-- Source `validation.py`, `validate_call_handler_signature`. -/
def validate_call_handler_signature (signature : String) (contract_name : String) :
    Except String Unit :=
  if pyBlank signature then
    .error ("Empty call handler signature for contract '" ++ contract_name ++ "'")
  else if ¬ (pyContainsChar signature '(' && pyContainsChar signature ')') then
    .error ("Invalid call handler signature for contract '" ++ contract_name ++ "': '" ++
            signature ++ "'. Expected format: functionName(type1,type2,...)")
  else if pyStrip (pyTakeUntil signature '(') = "" then
    .error ("Call handler signature missing function name for contract '" ++
            contract_name ++ "': '" ++ signature ++ "'")
  else .ok ()

/-- Source `validation.py`, `validate_template`. -/
def validate_template (template : TemplateConfig) (contract_names : List String) :
    Except String Unit :=
  if pyBlank template.name then
    .error "Template name cannot be empty"
  else if pyBlank template.abi_path then
    .error ("ABI path cannot be empty for template '" ++ template.name ++ "'")
  else if ¬ contract_names.contains template.source_contract then
    .error ("Template '" ++ template.name ++ "' references unknown source_contract '" ++
            template.source_contract ++ "'. Must be one of: " ++
            pyJoin ", " (pySorted contract_names.dedup))
  else if pyBlank template.source_event then
    .error ("Source event cannot be empty for template '" ++ template.name ++ "'")
  else if template.event_handlers = [] then
    .error ("Template '" ++ template.name ++ "' must have at least one event handler")
  else
    match firstErr
        (fun handler =>
          if pyBlank handler then
            .error ("Empty event handler name in template '" ++ template.name ++ "'")
          else .ok ())
        template.event_handlers with
    | .error e => .error e
    | .ok _ =>
      if (template.call_handlers.getD []) ≠ [] then
        firstErr
          (fun signature =>
            validate_call_handler_signature signature ("template:" ++ template.name))
          (template.call_handlers.getD [])
      else .ok ()

/-- Source `validation.py`, `validate_entity_relationship` (the name sets
are accepted but unused by the checks, mirroring the source). -/
def validate_entity_relationship (relationship : EntityRelationship)
    (_contract_names _template_names : List String) : Except String Unit :=
  if pyBlank relationship.from_entity then
    .error "Entity relationship 'from_entity' cannot be empty"
  else if pyBlank relationship.to_entity then
    .error "Entity relationship 'to_entity' cannot be empty"
  else if pyBlank relationship.field_name then
    .error ("Entity relationship field_name cannot be empty (from '" ++
            relationship.from_entity ++ "' to '" ++ relationship.to_entity ++ "')")
  else if ¬ VALID_RELATION_TYPES.contains relationship.relation_type then
    .error ("Invalid relation_type '" ++ relationship.relation_type ++
            "' in relationship from '" ++ relationship.from_entity ++ "' to '" ++
            relationship.to_entity ++ "'. Must be one of: " ++
            pyJoin ", " (pySorted VALID_RELATION_TYPES))
  else .ok ()

/-- Source `validation.py`, `validate_contract` (the `basic` branch only
logs warnings and raises nothing). -/
def validate_contract (contract : ContractConfig) (complexity : String) :
    Except String Unit :=
  if pyBlank contract.name then
    .error "Contract name cannot be empty"
  else
    match validate_address contract.address contract.name with
    | .error e => .error e
    | .ok _ =>
      if contract.start_block < 0 then
        .error ("Invalid start_block for contract '" ++ contract.name ++ "': " ++
                toString contract.start_block ++ ". Start block must be a non-negative integer.")
      else if pyBlank contract.abi_path then
        .error ("ABI path cannot be empty for contract '" ++ contract.name ++ "'")
      else if complexity = "intermediate" ∧ (contract.call_handlers.getD []) ≠ [] then
        firstErr (fun signature => validate_call_handler_signature signature contract.name)
          (contract.call_handlers.getD [])
      else .ok ()

/-- The advanced-features section of `validate_config`: everything after
the duplicate-address check (the non-advanced branch only logs). -/
def validateAdvancedSection (config : SubgraphConfig) : Except String Unit :=
  if config.complexity = "advanced" then
    let contract_names := config.contracts.map (·.name)
    match firstErr (fun t => validate_template t contract_names) config.templates with
    | .error e => .error e
    | .ok _ =>
      let template_names := config.templates.map (·.name)
      if hasDuplicates template_names then
        .error ("Duplicate template names found: " ++ pyJoin ", " (duplicateItems template_names))
      else
        firstErr
          (fun r => validate_entity_relationship r contract_names template_names)
          config.entity_relationships
  else .ok ()

/-- Source `validation.py`, `validate_config`: the global checks, then
per-contract validation, then duplicate names, then duplicate
case-insensitive addresses, then the advanced-features section. -/
def validate_config (config : SubgraphConfig) : Except String Unit :=
  if ¬ SUPPORTED_CONFIG_VERSIONS.contains config.config_version then
    .error ("Unsupported config_version: " ++ toString config.config_version ++
            ". Supported versions: [1, 2, 3]")
  else if pyBlank config.name then
    .error "Subgraph name cannot be empty"
  else if ¬ SUPPORTED_NETWORK_NAMES.contains config.network then
    .error ("Unknown network: '" ++ config.network ++ "'. Supported networks: " ++
            pyJoin ", " (pySorted SUPPORTED_NETWORK_NAMES))
  else if pyBlank config.output_dir then
    .error "Output directory cannot be empty"
  else if ¬ VALID_MAPPING_MODES.contains config.mappings_mode then
    .error ("Invalid mappings_mode: '" ++ config.mappings_mode ++ "'. Must be one of: " ++
            pyJoin ", " (pySorted VALID_MAPPING_MODES))
  else if ¬ VALID_COMPLEXITY_LEVELS.contains config.complexity then
    .error ("Invalid complexity: '" ++ config.complexity ++ "'. Must be one of: " ++
            pyJoin ", " (pySorted VALID_COMPLEXITY_LEVELS))
  else if config.contracts = [] then
    .error "At least one contract must be specified"
  else
    match firstErr (fun c => validate_contract c config.complexity) config.contracts with
    | .error e => .error e
    | .ok _ =>
      let contract_names := config.contracts.map (·.name)
      if hasDuplicates contract_names then
        .error ("Duplicate contract names found: " ++ pyJoin ", " (duplicateItems contract_names))
      else
        let contract_addresses := config.contracts.map (fun c => pyLower c.address)
        if hasDuplicates contract_addresses then
          .error ("Duplicate contract addresses found: " ++
                  pyJoin ", " (duplicateItems contract_addresses))
        else validateAdvancedSection config

/-! ## generate/schema.py -/

/-- One field of an entity definition in the schema-building context. -/
structure EntityField where
  name : String
  ty : String
  required : Bool
  derived_from : Option String := none
deriving DecidableEq, Repr

/-- One entity definition in the schema-building context. -/
structure Entity where
  name : String
  fields : List EntityField
deriving DecidableEq, Repr

/-- Source `generate/schema.py`, `_build_entity_from_event`. -/
def _build_entity_from_event (event : Event) : Entity :=
  { name := get_entity_name event.name,
    fields := event.params.map
      (fun param =>
        { name := to_camel_case param.name, ty := param.graph_type, required := true }) }

/-- Source `generate/schema.py`, `_build_entity_for_contract_placeholder`. -/
def _build_entity_for_contract_placeholder (contract : ContractConfig) : Entity :=
  { name := contract.name ++ "Event",
    fields := [{ name := "sender", ty := "Bytes", required := true },
               { name := "value", ty := "BigInt", required := true }] }

/-- Source `generate/schema.py`, `_build_entities_from_template`.  Python
`if abi:` is the truthiness test, so a present-but-empty ABI list takes
the placeholder branch. -/
def _build_entities_from_template (template : TemplateConfig)
    (abi : Option (List AbiEntry)) : List Entity :=
  if (abi.getD []) ≠ [] then
    let events := extract_events (abi.getD [])
    if events ≠ [] then
      (events.filter (fun e => template.event_handlers.contains e.name)).map
        _build_entity_from_event
    else
      template.event_handlers.map (fun n => { name := get_entity_name n, fields := [] })
  else
    template.event_handlers.map (fun n => { name := get_entity_name n, fields := [] })

/-- The per-contract entity construction inside `render_schema`: the
argument is `abi_map[contract.name]` when the key is present (`none`
models an absent key; presence is tested with `in`, not truthiness). -/
def renderSchemaEntitiesForContract (contract : ContractConfig)
    (abi : Option (List AbiEntry)) : List Entity :=
  match abi with
  | some abiList =>
    let events := extract_events abiList
    if events ≠ [] then events.map _build_entity_from_event
    else [_build_entity_for_contract_placeholder contract]
  | none => [_build_entity_for_contract_placeholder contract]

/-- Source `generate/schema.py`, `get_all_entities_for_contract`
(`if abi:` truthiness, then `if events:`). -/
def get_all_entities_for_contract (contract : ContractConfig)
    (abi : Option (List AbiEntry)) : List String :=
  if (abi.getD []) ≠ [] then
    let events := extract_events (abi.getD [])
    if events ≠ [] then events.map (fun e => get_entity_name e.name)
    else [contract.name ++ "Event"]
  else [contract.name ++ "Event"]

/-! ## generate/mappings_auto.py — handler construction -/

/-- One generated parameter-copy statement of a handler. -/
structure HandlerParam where
  entity_field : String
  event_param : String
deriving DecidableEq, Repr

/-- The template-instantiation data attached to a factory handler. -/
structure TemplateCreation where
  template_name : String
  address_param : String
deriving DecidableEq, Repr

/-- A handler context built by `_build_handler_for_event`. -/
structure Handler where
  name : String
  event_type : String
  entity_name : String
  params : List HandlerParam
  template_creation : Option TemplateCreation := none
deriving DecidableEq, Repr

/-- The address-parameter search loop of `_build_handler_for_event`: a
non-indexed address parameter stops the loop, an indexed one records the
name and keeps scanning.  The source reads key `"type"` via
`param.get("type")`; the parameter dictionaries built by
`extract_events` store the Solidity type under key `"solidity_type"`
(see `EventParam.get`). -/
def findAddressParamLoop (acc : Option String) : List EventParam → Option String
  | [] => acc
  | param :: rest =>
    if param.get "type" = some (.str "address") ∧
        (match param.get "indexed" with | some (.bool b) => b | _ => false) = false then
      some param.name
    else if param.get "type" = some (.str "address") then
      findAddressParamLoop (some param.name) rest
    else
      findAddressParamLoop acc rest

/-- The `for template in templates: ... break` loop of
`_build_handler_for_event`: the first template whose `source_contract`
and `source_event` match wins. -/
def findTriggeringTemplate (templates : List TemplateConfig)
    (contract_name event_name : String) : Option TemplateConfig :=
  templates.find? (fun t => t.source_contract = contract_name && t.source_event = event_name)

/-- Source `generate/mappings_auto.py`, `_build_handler_for_event`.
`if templates and contract_name:` is the Python truthiness test on an
optional list and an optional string. -/
def _build_handler_for_event (event : Event) (templates : Option (List TemplateConfig))
    (contract_name : Option String) : Handler :=
  let handler : Handler :=
    { name := get_handler_name event.name,
      event_type := event.name ++ "Event",
      entity_name := get_entity_name event.name,
      params := event.params.map
        (fun param => { entity_field := to_camel_case param.name, event_param := param.name }) }
  if (templates.getD []) ≠ [] ∧ (contract_name.getD "") ≠ "" then
    match findTriggeringTemplate (templates.getD []) (contract_name.getD "") event.name with
    | some template =>
      let found := (findAddressParamLoop none event.params).getD ""
      { handler with
        template_creation :=
          some { template_name := template.name,
                 address_param := if found ≠ "" then found else "ADDRESS_PARAM_HERE" } }
    | none => handler
  else handler

/-- The address-parameter selection the specification describes: the
first `address`-typed parameter of the event, preferring a non-indexed
address parameter over an indexed one; written from the spec for
comparison with the code. -/
def specAddressParam (params : List EventParam) : Option String :=
  match params.find? (fun p => p.solidity_type = "address" && !p.indexed) with
  | some p => some p.name
  | none => (params.find? (fun p => p.solidity_type = "address")).map (·.name)

/-! ## generate/subgraph_yaml.py — contract context -/

/-- Python `func_name[0].upper() + func_name[1:]` (the source never
applies it to an empty function name: validation rejects those). -/
def capFirst (s : String) : String :=
  match s.data with
  | [] => ""
  | c :: cs => String.mk (c.toUpper :: cs)

/-- Source `generate/subgraph_yaml.py`, `_get_call_handler_name`. -/
def _get_call_handler_name (function_signature : String) : String :=
  "handle" ++ capFirst (pyStrip (pyTakeUntil function_signature '(')) ++ "Call"

/-- Source `generate/subgraph_yaml.py`, `_get_block_handler_name`. -/
def _get_block_handler_name (contract_name : String) : String :=
  "handle" ++ contract_name ++ "Block"

/-- An event-handler reference in the manifest context. -/
structure EventHandlerRef where
  event_signature : String
  handler_name : String
deriving DecidableEq, Repr

/-- A call-handler reference in the manifest context. -/
structure CallHandlerRef where
  function_signature : String
  handler_name : String
deriving DecidableEq, Repr

/-- A template-ABI reference added to a factory data source. -/
structure TemplateAbiRef where
  name : String
  path : String
deriving DecidableEq, Repr

/-- The dictionary built by `_build_contract_context` (a `none` field is
a key the source only adds for the higher complexity tiers). -/
structure ContractContext where
  name : String
  address : String
  start_block : Int
  abi_path : String
  entities : List String
  event_handlers : List EventHandlerRef
  call_handlers : Option (List CallHandlerRef) := none
  block_handler : Option Bool := none
  block_handler_name : Option String := none
  template_abis : Option (List TemplateAbiRef) := none
deriving DecidableEq, Repr

/-- The `entity_name not in entities: entities.append(...)` loop adding
call-handler entities. -/
def appendCallEntities (entities : List String) (sigs : List String) : List String :=
  sigs.foldl
    (fun acc sig =>
      let entity_name := capFirst (pyStrip (pyTakeUntil sig '(')) ++ "Call"
      if ¬ acc.contains entity_name then acc ++ [entity_name] else acc)
    entities

/-- Source `generate/subgraph_yaml.py`, `_build_contract_context`.  The
source appends the call/block entities to the same list object already
stored in the context, so the context carries the final list. -/
def _build_contract_context (contract : ContractConfig) (abi : Option (List AbiEntry))
    (complexity : String) (templates : Option (List TemplateConfig)) : ContractContext :=
  let base :=
    if (abi.getD []) ≠ [] then
      let events := extract_events (abi.getD [])
      if events ≠ [] then
        (events.map (fun e => get_entity_name e.name),
         events.map (fun e =>
           { event_signature := e.signature,
             handler_name := get_handler_name e.name : EventHandlerRef }))
      else
        ([contract.name ++ "Event"],
         [{ event_signature := contract.name ++ "Event(address,uint256)",
            handler_name := "handle" ++ contract.name ++ "Event" }])
    else
      ([contract.name ++ "Event"],
       [{ event_signature := contract.name ++ "Event(address,uint256)",
          handler_name := "handle" ++ contract.name ++ "Event" }])
  let intermediateTier := complexity = "intermediate" ∨ complexity = "advanced"
  let callSigs := contract.call_handlers.getD []
  let call_handlers :=
    if intermediateTier ∧ callSigs ≠ [] then
      some (callSigs.map (fun sig =>
        { function_signature := sig, handler_name := _get_call_handler_name sig : CallHandlerRef }))
    else none
  let entities1 :=
    if intermediateTier ∧ callSigs ≠ [] then appendCallEntities base.1 callSigs else base.1
  let blockOn := intermediateTier ∧ contract.block_handler
  let entities2 :=
    if blockOn ∧ ¬ entities1.contains (contract.name ++ "Block") then
      entities1 ++ [contract.name ++ "Block"]
    else entities1
  let template_abis :=
    if complexity = "advanced" ∧ (templates.getD []) ≠ [] then
      let tabis := ((templates.getD []).filter (fun t => t.source_contract = contract.name)).map
        (fun t => { name := t.name, path := t.abi_path : TemplateAbiRef })
      if tabis ≠ [] then some tabis else none
    else none
  { name := contract.name, address := contract.address,
    start_block := contract.start_block, abi_path := contract.abi_path,
    entities := entities2, event_handlers := base.2,
    call_handlers := call_handlers,
    block_handler := if blockOn then some true else none,
    block_handler_name := if blockOn then some (_get_block_handler_name contract.name) else none,
    template_abis := template_abis }

/-! ## generate/orchestrator.py and utils/fs_utils.py — effect model -/

/-- The filesystem and logging actions the orchestrator performs, in
order.  Reading ABI files (`_load_abi_map`) only reads, so the loaded
ABI map and the rendered artifact texts (whose production bottoms out in
the out-of-scope Jinja collaborator) enter the model as parameters. -/
inductive FsAction where
  | ensureDir (path : String)
  | tempWrite (dir : String) (content : String)
  | renameTempTo (dst : String)
  | logMsg (msg : String)
  | logPreview (path : String) (preview : String)
deriving DecidableEq, Repr

/-- Actions that create or modify filesystem state. -/
def FsAction.isWrite : FsAction → Bool
  | .ensureDir _ => true
  | .tempWrite _ _ => true
  | .renameTempTo _ => true
  | .logMsg _ => false
  | .logPreview _ _ => false

/-- Parent directory of a `/`-joined path (`path.parent`). -/
def dirname (path : String) : String :=
  pyJoin "/" (((splitOnChar '/' path.data).map String.mk).dropLast)

/-- Source `utils/fs_utils.py`, `safe_write`: ensure the parent
directory, write the content to a fresh temp file in that directory,
atomically rename the temp file onto the target. -/
def safe_write (path content : String) : List FsAction :=
  [.ensureDir (dirname path), .tempWrite (dirname path) content, .renameTempTo path]

/-- Source `generate/orchestrator.py`, `DRY_RUN_PREVIEW_LENGTH`. -/
def DRY_RUN_PREVIEW_LENGTH : Nat := 200

/-- Python `content.replace("\n", "\\n")` used for the preview display. -/
def replaceNewlines (s : String) : String :=
  String.mk (s.data.flatMap (fun c => if c = '\n' then ['\\', 'n'] else [c]))

/-- The preview string `_log_dry_run_file` logs: the first 200 characters,
an ellipsis when the content is longer, newlines escaped. -/
def dryRunPreview (content : String) : String :=
  replaceNewlines
    (pyTake content DRY_RUN_PREVIEW_LENGTH ++
      (if DRY_RUN_PREVIEW_LENGTH < pyLen content then "..." else ""))

/-- Source `generate/orchestrator.py`, `_log_dry_run_file`. -/
def _log_dry_run_file (path content : String) : List FsAction :=
  [.logMsg ("[DRY RUN] Would write: " ++ path),
   .logPreview path (dryRunPreview content)]

/-- Source `generate/project_layout.py`, `prepare_project_structure`. -/
def prepare_project_structure (config : SubgraphConfig) : List FsAction :=
  [.ensureDir config.output_dir,
   .ensureDir (config.output_dir ++ "/abis"),
   .ensureDir (config.output_dir ++ "/src"),
   .ensureDir (config.output_dir ++ "/src/mappings")]

/-- The artifacts `generate_subgraph_project` renders, as
(path, content) pairs in write order: manifest, schema, one mapping per
contract/template name, package.json, README. -/
def projectArtifacts (config : SubgraphConfig) (yamlText schemaText : String)
    (mappingTexts : List (String × String)) (pkgText readmeText : String) :
    List (String × String) :=
  (config.output_dir ++ "/subgraph.yaml", yamlText) ::
  (config.output_dir ++ "/schema.graphql", schemaText) ::
  (mappingTexts.map (fun nc => (config.output_dir ++ "/src/mappings/" ++ nc.1 ++ ".ts", nc.2)) ++
   [(config.output_dir ++ "/package.json", pkgText),
    (config.output_dir ++ "/README.md", readmeText)])

/-- Source `generate/orchestrator.py`, `generate_subgraph_project`,
as the ordered list of actions it performs: under `dry_run` only the
dry-run log lines, otherwise the directory skeleton followed by one
`safe_write` per artifact. -/
def generate_subgraph_project (config : SubgraphConfig) (dry_run : Bool)
    (yamlText schemaText : String) (mappingTexts : List (String × String))
    (pkgText readmeText : String) : List FsAction :=
  (if dry_run then
    [.logMsg ("[DRY RUN] Would create directory structure in: " ++ config.output_dir),
     .logMsg ("[DRY RUN] Would create: " ++ config.output_dir ++ "/abis/"),
     .logMsg ("[DRY RUN] Would create: " ++ config.output_dir ++ "/src/"),
     .logMsg ("[DRY RUN] Would create: " ++ config.output_dir ++ "/src/mappings/")]
   else prepare_project_structure config) ++
  (projectArtifacts config yamlText schemaText mappingTexts pkgText readmeText).flatMap
    (fun pc =>
      if dry_run then _log_dry_run_file pc.1 pc.2
      else safe_write pc.1 pc.2 ++ [.logMsg ("Generated: " ++ pc.1)])

/-! ## Concrete fixtures (from the spec scenarios and the repository's
own test data) -/

/-- The Transfer-event ABI of the specification's scenario. -/
def transferAbi : List AbiEntry :=
  [{ ty := some "event", name := some "Transfer",
     inputs := some
       [{ name := some "from", ty := some "address", indexed := some true },
        { name := some "to", ty := some "address", indexed := some true },
        { name := some "value", ty := some "uint256", indexed := some false }] }]

/-- The Uniswap-style factory ABI used by the repository's advanced
mapping tests: `PairCreated(token0 indexed address, token1 indexed
address, pair address, pairId uint256)`. -/
def factoryAbi : List AbiEntry :=
  [{ ty := some "event", name := some "PairCreated",
     inputs := some
       [{ name := some "token0", ty := some "address", indexed := some true },
        { name := some "token1", ty := some "address", indexed := some true },
        { name := some "pair", ty := some "address", indexed := some false },
        { name := some "pairId", ty := some "uint256", indexed := some false }] }]

/-- The Pair template of the repository's advanced tests. -/
def pairTemplate : TemplateConfig :=
  { name := "Pair", abi_path := "Pair.json", event_handlers := ["Swap", "Sync"],
    source_contract := "Factory", source_event := "PairCreated" }

/-- A one-event ABI whose only event (`Swap`) does not appear in
`syncOnlyTemplate.event_handlers`. -/
def swapOnlyAbi : List AbiEntry :=
  [{ ty := some "event", name := some "Swap",
     inputs := some [{ name := some "sender", ty := some "address", indexed := some true }] }]

/-- A template whose declared handlers match no event of `swapOnlyAbi`. -/
def syncOnlyTemplate : TemplateConfig :=
  { name := "Pair", abi_path := "Pair.json", event_handlers := ["Sync"],
    source_contract := "Factory", source_event := "PairCreated" }

/-- An intermediate-complexity config still carrying `config_version 1`. -/
def versionOneIntermediateConfig : SubgraphConfig :=
  { name := "demo", network := "ethereum", output_dir := "./out",
    mappings_mode := "auto",
    contracts := [{ name := "Token",
                    address := "0x5C69bEe701ef814a2B6a3EDD4B1652CB9cc5aA6f",
                    start_block := 0, abi_path := "Token.json" }],
    config_version := 1, complexity := "intermediate" }

/-- An advanced config whose round trip exercises every nested list. -/
def advancedRoundTripConfig : SubgraphConfig :=
  { name := "uniswap-v2-subgraph", network := "ethereum", output_dir := "./output",
    mappings_mode := "auto",
    contracts := [{ name := "Factory",
                    address := "0x5C69bEe701ef814a2B6a3EDD4B1652CB9cc5aA6f",
                    start_block := 10000835, abi_path := "Factory.json",
                    call_handlers := some ["transfer(address,uint256)"] }],
    config_version := 3, complexity := "advanced",
    templates := [pairTemplate],
    entity_relationships :=
      [{ from_entity := "Factory", to_entity := "Pair",
         relation_type := "one_to_many", field_name := "pairs",
         derived_from := some "factory" }] }

/-- A basic config with two contracts whose addresses differ only in
letter case. -/
def duplicateAddressConfig : SubgraphConfig :=
  { name := "demo", network := "ethereum", output_dir := "./out",
    mappings_mode := "auto",
    contracts :=
      [{ name := "TokenA", address := "0x5C69bEe701ef814a2B6a3EDD4B1652CB9cc5aA6f",
         start_block := 0, abi_path := "TokenA.json" },
       { name := "TokenB", address := "0x5c69bee701ef814a2b6a3edd4b1652cb9cc5aa6f",
         start_block := 0, abi_path := "TokenB.json" }],
    config_version := 1, complexity := "basic" }

/-- The same config with distinct addresses. -/
def distinctAddressConfig : SubgraphConfig :=
  { name := "demo", network := "ethereum", output_dir := "./out",
    mappings_mode := "auto",
    contracts :=
      [{ name := "TokenA", address := "0x5C69bEe701ef814a2B6a3EDD4B1652CB9cc5aA6f",
         start_block := 0, abi_path := "TokenA.json" },
       { name := "TokenB", address := "0x0000000000000000000000000000000000000001",
         start_block := 0, abi_path := "TokenB.json" }],
    config_version := 1, complexity := "basic" }

/-! ## Statement-side characterizations -/

/-- The entries `extract_events` keeps: `type == "event"` with a
non-empty name. -/
def extractKeep (entry : AbiEntry) : Bool :=
  (entry.ty == some "event") && (entry.name.getD "" != "")

/-- The event dictionary `extract_events` builds for one kept entry. -/
def buildEventFromEntry (entry : AbiEntry) : Event :=
  { name := entry.name.getD "",
    params := processInputs (entry.inputs.getD []),
    signature := build_event_signature (entry.name.getD "") (entry.inputs.getD []) }

/-- The parameter dictionary built for the input at position `k`. -/
def mkEventParamAt (k : Nat) (inp : AbiInput) : EventParam :=
  { name := if inp.name.getD "" = "" then "param" ++ toString k else inp.name.getD "",
    solidity_type := inp.ty.getD "",
    graph_type := solidity_type_to_graph (inp.ty.getD ""),
    indexed := inp.indexed.getD false }

/-- Position-indexed form of the parameter loop, for stating what name
each parameter receives. -/
def processInputsFrom (k : Nat) : List AbiInput → List EventParam
  | [] => []
  | inp :: rest => mkEventParamAt k inp :: processInputsFrom (k + 1) rest

/-- A message mentions a word when the word occurs in the lowercased
message. -/
def mentions (msg w : String) : Prop :=
  w.data <:+: (pyLower msg).data

/-! ## Helper lemmas -/

theorem foldl_append_join (f : String → String) (l : List String) (a : String) :
    l.foldl (fun acc x => acc ++ f x) a = a ++ String.join (l.map f) := by
  induction l generalizing a with
  | nil =>
    apply String.ext
    simp [String.data_append]
  | cons x xs ih =>
    simp only [List.foldl_cons, List.map_cons]
    rw [ih]
    apply String.ext
    simp [String.data_append]

/-! ## Claim C3 -/

/-- Claim C3, counterexample: Python `str.capitalize()` lowercases the
tail of a segment, so `to_camel_case "a_ID"` is `"aId"`, while the
specification's rest-unchanged reading gives `"aID"`. -/
theorem claim_C3_counterexample :
    to_camel_case "a_ID" = "aId" ∧ to_camel_case_spec "a_ID" = "aID" ∧
    to_camel_case "a_ID" ≠ to_camel_case_spec "a_ID" :=
  ⟨by decide, by decide, by decide⟩

/-- Claim C3 (amended): `to_camel_case` splits on underscores, lowercases
the first segment entirely, and for each later segment uppercases its
first letter and lowercases the rest; it maps `""` to `""`,
`"token_id"` to `"tokenId"`, and `"from"` to `"from"`. -/
theorem claim_C3_to_camel_case :
    (∀ s : String, to_camel_case s = to_camel_case_amended s) ∧
    to_camel_case "token_id" = "tokenId" ∧
    to_camel_case "" = "" ∧
    to_camel_case "from" = "from" := by
  refine ⟨fun s => ?_, by decide, by decide, by decide⟩
  by_cases h : s = ""
  · subst h; decide
  · unfold to_camel_case to_camel_case_amended
    rw [if_neg h]
    cases hs : pySplitUnderscore s with
    | nil => rfl
    | cons p rest => exact foldl_append_join pyCapitalize rest (pyLower p)

/-! ## Claim C5 -/

/-- Claim C5: `build_event_signature` returns the event name followed by
the parenthesized comma-join of the raw `type` strings of the inputs in
input order; the result is independent of every input's `indexed` flag;
and the Transfer scenario yields `"Transfer(address,address,uint256)"`. -/
theorem claim_C5_build_event_signature :
    (∀ (event_name : String) (inputs : List AbiInput),
        build_event_signature event_name inputs =
          event_name ++ "(" ++ pyJoin "," (inputs.map (fun inp => inp.ty.getD "")) ++ ")") ∧
    (∀ (event_name : String) (inputs : List AbiInput) (g : AbiInput → Option Bool),
        build_event_signature event_name
            (inputs.map (fun inp => { inp with indexed := g inp })) =
          build_event_signature event_name inputs) ∧
    (extract_events transferAbi).map Event.signature = ["Transfer(address,address,uint256)"] := by
  refine ⟨fun n i => rfl, fun n i g => ?_, by decide⟩
  simp only [build_event_signature, List.map_map]
  congr 1

/-! ## Claim C6 -/

/-- Claim C6: for every multiple of 8 between 8 and 256, `intN` and
`uintN` map to `Int` exactly when `N ≤ 32` and to `BigInt` otherwise,
and bare `int`/`uint` map to `BigInt`. -/
theorem claim_C6_integer_widths (n : Nat) (hdvd : 8 ∣ n) (hlo : 8 ≤ n) (hhi : n ≤ 256) :
    solidity_type_to_graph ("int" ++ toString n) = (if n ≤ 32 then "Int" else "BigInt") ∧
    solidity_type_to_graph ("uint" ++ toString n) = (if n ≤ 32 then "Int" else "BigInt") ∧
    solidity_type_to_graph "int" = "BigInt" ∧
    solidity_type_to_graph "uint" = "BigInt" := by
  obtain ⟨k, rfl⟩ := hdvd
  have hk1 : 1 ≤ k := by omega
  have hk2 : k ≤ 32 := by omega
  interval_cases k <;> decide

/-- Claim C6, witness at width 64. -/
theorem claim_C6_integer_widths_witness :
    solidity_type_to_graph ("int" ++ toString 64) = (if 64 ≤ 32 then "Int" else "BigInt") :=
  (claim_C6_integer_widths 64 (by norm_num) (by norm_num) (by norm_num)).1

/-! ## Claim C7 -/

theorem foldl_params_eq (l : List AbiInput) : ∀ acc : List EventParam,
    l.foldl
      (fun params inp =>
        let param_name0 := inp.name.getD ""
        let param_type := inp.ty.getD ""
        let indexed := inp.indexed.getD false
        let param_name :=
          if param_name0 = "" then "param" ++ toString params.length else param_name0
        params ++ [{ name := param_name, solidity_type := param_type,
                     graph_type := solidity_type_to_graph param_type, indexed := indexed }])
      acc = acc ++ processInputsFrom acc.length l := by
  induction l with
  | nil => intro acc; simp [processInputsFrom]
  | cons inp rest ih =>
    intro acc
    simp only [List.foldl_cons]
    rw [ih]
    simp [processInputsFrom, mkEventParamAt, List.append_assoc]

theorem processInputs_eq_from (inputs : List AbiInput) :
    processInputs inputs = processInputsFrom 0 inputs := by
  simpa [processInputs] using foldl_params_eq inputs []

theorem processInputsFrom_length (l : List AbiInput) : ∀ k : Nat,
    (processInputsFrom k l).length = l.length := by
  induction l with
  | nil => intro k; rfl
  | cons x xs ih => intro k; simp [processInputsFrom, ih]

theorem processInputsFrom_get (l : List AbiInput) : ∀ (k i : Nat) (h : i < l.length),
    (processInputsFrom k l)[i]? = some (mkEventParamAt (k + i) (l.get ⟨i, h⟩)) := by
  induction l with
  | nil => intro k i h; simp at h
  | cons x xs ih =>
    intro k i h
    cases i with
    | zero => simp [processInputsFrom]
    | succ j =>
      have hj : j < xs.length := by simpa using h
      have := ih (k + 1) j hj
      simp only [processInputsFrom, List.getElem?_cons_succ, List.get_cons_succ]
      rw [this]
      have harith : k + 1 + j = k + (j + 1) := by omega
      rw [harith]

theorem extract_events_go (abi : List AbiEntry) : ∀ acc : List Event,
    abi.foldl
      (fun events entry =>
        if entry.ty = some "event" then
          let event_name := entry.name.getD ""
          let inputs := entry.inputs.getD []
          if event_name = "" then events
          else
            events ++ [{ name := event_name,
                         params := processInputs inputs,
                         signature := build_event_signature event_name inputs }]
        else events)
      acc = acc ++ (abi.filter extractKeep).map buildEventFromEntry := by
  induction abi with
  | nil => intro acc; simp
  | cons entry rest ih =>
    intro acc
    simp only [List.foldl_cons]
    by_cases h1 : entry.ty = some "event"
    · by_cases h2 : entry.name.getD "" = ""
      · rw [if_pos h1]
        simp only [h2, if_pos rfl]
        rw [ih]
        have hk : extractKeep entry = false := by
          simp [extractKeep, h2]
        simp [List.filter_cons, hk]
      · rw [if_pos h1]
        simp only [if_neg h2]
        rw [ih]
        have hk : extractKeep entry = true := by
          simp [extractKeep, h1, h2]
        simp [List.filter_cons, hk, buildEventFromEntry, List.append_assoc]
    · rw [if_neg h1]
      rw [ih]
      have hk : extractKeep entry = false := by
        simp [extractKeep, h1]
      simp [List.filter_cons, hk]

/-- Claim C7: `extract_events` is total on well-typed ABI lists and equals
a filter-map: entries whose `type` is not `"event"` are ignored, event
entries with a missing or empty name are dropped, and the parameter loop
preserves length and synthesizes `param<N>` (0-based position) for every
unnamed parameter. -/
theorem claim_C7_extract_events :
    (∀ abi : List AbiEntry,
        extract_events abi = (abi.filter extractKeep).map buildEventFromEntry) ∧
    (∀ inputs : List AbiInput, (processInputs inputs).length = inputs.length) ∧
    (∀ (inputs : List AbiInput) (i : Nat) (h : i < inputs.length),
        (processInputs inputs)[i]?.map EventParam.name =
          some (if (inputs.get ⟨i, h⟩).name.getD "" = ""
                then "param" ++ toString i
                else (inputs.get ⟨i, h⟩).name.getD "")) := by
  refine ⟨fun abi => ?_, fun inputs => ?_, fun inputs i h => ?_⟩
  · simpa [extract_events] using extract_events_go abi []
  · rw [processInputs_eq_from]; exact processInputsFrom_length inputs 0
  · rw [processInputs_eq_from, processInputsFrom_get inputs 0 i h]
    simp [mkEventParamAt]

/-- Claim C7, witness: a single unnamed address parameter receives the
synthesized name `param0`. -/
theorem claim_C7_extract_events_witness :
    (processInputs [{ name := none, ty := some "address", indexed := none }])[0]?.map
        EventParam.name = some "param0" := by
  have h := claim_C7_extract_events.2.2
    [{ name := none, ty := some "address", indexed := none }] 0 (by decide)
  exact h.trans (by decide)

/-! ## Claim C2 -/

/-- Claim C2, counterexample: the ABI extracts exactly one event
(`Swap`), the template declares only `Sync`, and the schema builder
returns the empty entity list — not the placeholder list the claim
predicts for the no-matching-event case. -/
theorem claim_C2_counterexample :
    _build_entities_from_template syncOnlyTemplate (some swapOnlyAbi) = [] ∧
    (extract_events swapOnlyAbi).map Event.name = ["Swap"] ∧
    syncOnlyTemplate.event_handlers = ["Sync"] ∧
    _build_entities_from_template syncOnlyTemplate (some swapOnlyAbi) ≠
      [{ name := "Sync", fields := [] }] := by
  decide

/-- Claim C2 (amended): `_build_entities_from_template` returns one
empty-field placeholder entity per declared handler name exactly when
the ABI is absent/empty or extracts no events at all; when extraction
yields at least one event it returns one entity per event whose name is
declared in `event_handlers`, built from that event's parameters — so
with events present but none matching it returns the empty list. -/
theorem claim_C2_entities_from_template (template : TemplateConfig)
    (abi : Option (List AbiEntry)) :
    ((abi.getD []) = [] ∨ extract_events (abi.getD []) = [] →
      _build_entities_from_template template abi =
        template.event_handlers.map (fun n => { name := get_entity_name n, fields := [] })) ∧
    (extract_events (abi.getD []) ≠ [] →
      _build_entities_from_template template abi =
        ((extract_events (abi.getD [])).filter
            (fun e => template.event_handlers.contains e.name)).map _build_entity_from_event) := by
  constructor
  · intro h
    by_cases habi : (abi.getD []) = []
    · simp [_build_entities_from_template, habi]
    · have hev : extract_events (abi.getD []) = [] := h.resolve_left habi
      simp [_build_entities_from_template, habi, hev]
  · intro h
    have habi : (abi.getD []) ≠ [] := by
      intro hc
      exact h (by rw [hc]; rfl)
    simp [_build_entities_from_template, habi, h]

/-- Claim C2, witness: with no ABI the Pair template yields one empty
placeholder entity per declared handler. -/
theorem claim_C2_entities_from_template_witness :
    _build_entities_from_template pairTemplate none =
      [{ name := "Swap", fields := [] }, { name := "Sync", fields := [] }] := by
  have h := (claim_C2_entities_from_template pairTemplate none).1 (Or.inl rfl)
  exact h.trans (by decide)

/-! ## Claim C4 -/

theorem contract_round_trip (cc : ContractConfig) :
    ContractConfig.from_dict (ContractConfig.to_dict cc) = cc := by
  obtain ⟨n, a, s, p, ie, ch, bh⟩ := cc
  cases bh <;> rfl

theorem template_round_trip (t : TemplateConfig) (h : t.call_handlers ≠ some []) :
    TemplateConfig.from_dict (TemplateConfig.to_dict t) = t := by
  obtain ⟨n, p, eh, sc, se, ie, ch, bh⟩ := t
  simp only [ne_eq] at h
  cases bh <;> cases ch with
  | none => rfl
  | some l =>
    cases l with
    | nil => simp at h
    | cons x xs => simp [TemplateConfig.to_dict, TemplateConfig.from_dict]

theorem relationship_round_trip (r : EntityRelationship) (h : r.derived_from ≠ some "") :
    EntityRelationship.from_dict (EntityRelationship.to_dict r) = r := by
  obtain ⟨fe, te, rt, fn, df⟩ := r
  cases df with
  | none => rfl
  | some s =>
    simp only [ne_eq, Option.some.injEq] at h
    simp [EntityRelationship.to_dict, EntityRelationship.from_dict, h]

theorem map_contract_round (l : List ContractConfig) :
    (l.map ContractConfig.to_dict).map ContractConfig.from_dict = l := by
  induction l with
  | nil => rfl
  | cons x xs ih => simp only [List.map_cons, contract_round_trip, ih]

theorem map_template_round (l : List TemplateConfig)
    (h : ∀ t ∈ l, t.call_handlers ≠ some []) :
    (l.map TemplateConfig.to_dict).map TemplateConfig.from_dict = l := by
  induction l with
  | nil => rfl
  | cons x xs ih =>
    simp only [List.map_cons]
    rw [template_round_trip x (h x (by simp)), ih (fun t ht => h t (by simp [ht]))]

theorem map_relationship_round (l : List EntityRelationship)
    (h : ∀ r ∈ l, r.derived_from ≠ some "") :
    (l.map EntityRelationship.to_dict).map EntityRelationship.from_dict = l := by
  induction l with
  | nil => rfl
  | cons x xs ih =>
    simp only [List.map_cons]
    rw [relationship_round_trip x (h x (by simp)), ih (fun r hr => h r (by simp [hr]))]

/-- Claim C4, counterexample: an intermediate-complexity config carrying
`config_version 1` does not round-trip — `to_dict` bumps the serialized
version to 2, which `from_dict` reads back. -/
theorem claim_C4_counterexample :
    SubgraphConfig.from_dict (SubgraphConfig.to_dict versionOneIntermediateConfig) ≠
      versionOneIntermediateConfig ∧
    (SubgraphConfig.from_dict
        (SubgraphConfig.to_dict versionOneIntermediateConfig)).config_version = 2 ∧
    versionOneIntermediateConfig.config_version = 1 := by
  decide

/-- Claim C4 (amended): `from_dict ∘ to_dict` reproduces the config in
every field, including the nested contract/template/relationship lists,
provided the stored `config_version` is already at least the minimum
`to_dict` enforces for the config's complexity, no template carries a
present-but-empty `call_handlers` list, and no relationship carries a
present-but-empty `derived_from` string (those values are dropped by
serialization and read back as absent). -/
theorem claim_C4_round_trip (c : SubgraphConfig)
    (hver2 : c.complexity = "intermediate" → 2 ≤ c.config_version)
    (hver3 : c.complexity = "advanced" → 3 ≤ c.config_version)
    (htmpl : ∀ t ∈ c.templates, t.call_handlers ≠ some [])
    (hrel : ∀ r ∈ c.entity_relationships, r.derived_from ≠ some "") :
    SubgraphConfig.from_dict (SubgraphConfig.to_dict c) = c := by
  obtain ⟨n, nw, od, mm, cs, v, cx, ts, rs⟩ := c
  simp only at hver2 hver3 htmpl hrel
  have hversion :
      (if cx = "intermediate" ∧ v < 2 then 2
       else if cx = "advanced" ∧ v < 3 then (3 : Int) else v) = v := by
    by_cases h1 : cx = "intermediate"
    · have h2 := hver2 h1
      rw [if_neg (show ¬(cx = "intermediate" ∧ v < 2) from fun hc => absurd hc.2 (by omega)),
          if_neg (show ¬(cx = "advanced" ∧ v < 3) from
            fun hc => absurd (h1.symm.trans hc.1) (by decide))]
    · by_cases h2 : cx = "advanced"
      · have h3 := hver3 h2
        rw [if_neg (show ¬(cx = "intermediate" ∧ v < 2) from fun hc => h1 hc.1),
            if_neg (show ¬(cx = "advanced" ∧ v < 3) from fun hc => absurd hc.2 (by omega))]
      · rw [if_neg (show ¬(cx = "intermediate" ∧ v < 2) from fun hc => h1 hc.1),
            if_neg (show ¬(cx = "advanced" ∧ v < 3) from fun hc => h2 hc.1)]
  simp only [SubgraphConfig.to_dict, SubgraphConfig.from_dict]
  rw [hversion, map_contract_round]
  by_cases hts : ts = [] <;> by_cases hrs : rs = [] <;>
    simp [hts, hrs, map_template_round ts htmpl, map_relationship_round rs hrel]

/-- Claim C4, witness: a fully populated advanced config round-trips. -/
theorem claim_C4_round_trip_witness :
    SubgraphConfig.from_dict (SubgraphConfig.to_dict advancedRoundTripConfig) =
      advancedRoundTripConfig :=
  claim_C4_round_trip advancedRoundTripConfig (by decide) (by decide) (by decide) (by decide)

/-! ## Claim C1 -/

/-- Claim C1, evaluation at the repository's own factory fixture: the
`PairCreated` event carries three `address`-typed parameters and the
specification's selection rule picks the non-indexed `pair`, yet
`_build_handler_for_event` emits the `ADDRESS_PARAM_HERE` placeholder,
because its loop reads the parameter key `"type"` while the dictionaries
built by `extract_events` store the type under `"solidity_type"`. -/
theorem claim_C1_address_param_bug :
    ((extract_events factoryAbi).map
        (fun e => (_build_handler_for_event e (some [pairTemplate]) (some "Factory")).template_creation)) =
      [some { template_name := "Pair", address_param := "ADDRESS_PARAM_HERE" }] ∧
    ((extract_events factoryAbi).map (fun e => e.params.map EventParam.solidity_type)) =
      [["address", "address", "address", "uint256"]] ∧
    ((extract_events factoryAbi).map (fun e => specAddressParam e.params)) = [some "pair"] := by
  decide

/-! ## Claim C8 -/

theorem firstErr_ok {α : Type} (f : α → Except String Unit) (l : List α)
    (h : ∀ x ∈ l, f x = .ok ()) : firstErr f l = .ok () := by
  induction l with
  | nil => rfl
  | cons x xs ih =>
    have hx := h x (by simp)
    simp [firstErr, hx, ih (fun y hy => h y (by simp [hy]))]

theorem hasDuplicates_false_iff (l : List String) : hasDuplicates l = false ↔ l.Nodup := by
  unfold hasDuplicates
  simp only [ne_eq, decide_not, Bool.not_eq_false', decide_eq_true_eq]
  constructor
  · intro h
    exact List.dedup_eq_self.1 ((l.dedup_sublist).eq_of_length h)
  · intro h
    rw [List.dedup_eq_self.2 h]

theorem hasDuplicates_true_iff (l : List String) : hasDuplicates l = true ↔ ¬ l.Nodup := by
  rw [← hasDuplicates_false_iff]
  cases hasDuplicates l <;> simp

theorem pyLower_data_append (a b : String) :
    (pyLower (a ++ b)).data = (pyLower a).data ++ (pyLower b).data := by
  simp [pyLower, String.data_append]

theorem mentions_append_left (pre tail w : String) (h : mentions pre w) :
    mentions (pre ++ tail) w := by
  unfold mentions at *
  obtain ⟨s, t, hst⟩ := h
  exact ⟨s, t ++ (pyLower tail).data, by rw [pyLower_data_append, ← hst]; simp⟩

/-- Claim C8: once the global checks pass, every contract validates
individually and the contract names are distinct, `validate_config`
raises a `ValidationError` mentioning "duplicate" and "address" exactly
when two case-folded contract addresses coincide; with case-insensitively
distinct addresses it passes that check and proceeds to the
advanced-features section. -/
theorem claim_C8_duplicate_addresses (config : SubgraphConfig)
    (hv : SUPPORTED_CONFIG_VERSIONS.contains config.config_version = true)
    (hn : pyBlank config.name = false)
    (hnet : SUPPORTED_NETWORK_NAMES.contains config.network = true)
    (hout : pyBlank config.output_dir = false)
    (hmode : VALID_MAPPING_MODES.contains config.mappings_mode = true)
    (hcx : VALID_COMPLEXITY_LEVELS.contains config.complexity = true)
    (hne : config.contracts ≠ [])
    (hvalid : ∀ c ∈ config.contracts, validate_contract c config.complexity = .ok ())
    (hnames : (config.contracts.map (·.name)).Nodup) :
    (¬ (config.contracts.map (fun c => pyLower c.address)).Nodup →
      ∃ msg, validate_config config = .error msg ∧
        mentions msg "duplicate" ∧ mentions msg "address") ∧
    ((config.contracts.map (fun c => pyLower c.address)).Nodup →
      validate_config config = validateAdvancedSection config) := by
  have hreduce : validate_config config =
      (if hasDuplicates (config.contracts.map (fun c => pyLower c.address)) then
        Except.error ("Duplicate contract addresses found: " ++
          pyJoin ", " (duplicateItems (config.contracts.map (fun c => pyLower c.address))))
      else validateAdvancedSection config) := by
    unfold validate_config
    rw [if_neg (not_not_intro hv), if_neg (by simp [hn]), if_neg (not_not_intro hnet),
        if_neg (by simp [hout]), if_neg (not_not_intro hmode), if_neg (not_not_intro hcx),
        if_neg hne, firstErr_ok _ _ hvalid]
    have hnd : hasDuplicates (config.contracts.map (·.name)) = false :=
      (hasDuplicates_false_iff _).2 hnames
    simp only [hnd, Bool.false_eq_true, if_false]
  constructor
  · intro hdup
    have hd : hasDuplicates (config.contracts.map (fun c => pyLower c.address)) = true :=
      (hasDuplicates_true_iff _).2 hdup
    rw [hreduce, if_pos hd]
    refine ⟨_, rfl,
      mentions_append_left _ _ _ ⟨[], " contract addresses found: ".data, by decide⟩,
      mentions_append_left _ _ _ ⟨"duplicate contract ".data, "es found: ".data, by decide⟩⟩
  · intro hnodup
    have hd : hasDuplicates (config.contracts.map (fun c => pyLower c.address)) = false :=
      (hasDuplicates_false_iff _).2 hnodup
    rw [hreduce, if_neg (by simp [hd])]

/-- Claim C8, witness: two contracts whose addresses differ only in case
trigger the duplicate-address error. -/
theorem claim_C8_duplicate_addresses_witness :
    ∃ msg, validate_config duplicateAddressConfig = .error msg ∧
      mentions msg "duplicate" ∧ mentions msg "address" := by
  have h := claim_C8_duplicate_addresses duplicateAddressConfig
    (by decide) (by decide) (by decide) (by decide) (by decide) (by decide)
    (by decide) (by intro c hc; fin_cases hc <;> rfl) (by decide)
  exact h.1 (by decide)

/-! ## Claim C9 -/

theorem infix_flatMap_of_mem {α β : Type} (f : α → List β) (l : List α) (x : α) (hx : x ∈ l) :
    f x <:+: l.flatMap f := by
  induction l with
  | nil => cases hx
  | cons a as ih =>
    rcases List.mem_cons.1 hx with rfl | h
    · exact ⟨[], as.flatMap f, by simp⟩
    · exact (ih h).trans ⟨f a, [], by simp⟩

/-- Claim C9: for every config and every rendered artifact content, the
dry run performs no directory creation, temp write or rename and logs,
for each artifact, the 200-character-truncated preview; without dry run
every artifact is written through `safe_write`, i.e. through the
ensure-parent / temp-write / rename sequence. -/
theorem claim_C9_dry_run_frame (config : SubgraphConfig) (yamlText schemaText : String)
    (mappingTexts : List (String × String)) (pkgText readmeText : String) :
    (∀ a ∈ generate_subgraph_project config true yamlText schemaText mappingTexts
        pkgText readmeText, a.isWrite = false) ∧
    (∀ pc ∈ projectArtifacts config yamlText schemaText mappingTexts pkgText readmeText,
      FsAction.logPreview pc.1 (dryRunPreview pc.2) ∈
        generate_subgraph_project config true yamlText schemaText mappingTexts
          pkgText readmeText) ∧
    (∀ pc ∈ projectArtifacts config yamlText schemaText mappingTexts pkgText readmeText,
      safe_write pc.1 pc.2 <:+:
        generate_subgraph_project config false yamlText schemaText mappingTexts
          pkgText readmeText) := by
  refine ⟨fun a ha => ?_, fun pc hpc => ?_, fun pc hpc => ?_⟩
  · rcases List.mem_append.1 ha with h | h
    · simp at h
      rcases h with rfl | rfl | rfl | rfl <;> rfl
    · obtain ⟨qc, _, hmem⟩ := List.mem_flatMap.1 h
      simp [_log_dry_run_file] at hmem
      rcases hmem with rfl | rfl <;> rfl
  · refine List.mem_append_right _ (List.mem_flatMap.2 ⟨pc, hpc, ?_⟩)
    simp [_log_dry_run_file]
  · have hinner :
        safe_write pc.1 pc.2 <:+:
          (fun qc : String × String =>
            if (false : Bool) then _log_dry_run_file qc.1 qc.2
            else safe_write qc.1 qc.2 ++ [FsAction.logMsg ("Generated: " ++ qc.1)]) pc :=
      ⟨[], [FsAction.logMsg ("Generated: " ++ pc.1)], by simp⟩
    have hflat := hinner.trans
      (infix_flatMap_of_mem
        (fun qc : String × String =>
          if (false : Bool) then _log_dry_run_file qc.1 qc.2
          else safe_write qc.1 qc.2 ++ [FsAction.logMsg ("Generated: " ++ qc.1)])
        (projectArtifacts config yamlText schemaText mappingTexts pkgText readmeText) pc hpc)
    exact hflat.trans ⟨prepare_project_structure config, [], by simp [generate_subgraph_project]⟩

/-- Claim C9, witness: the manifest artifact of a concrete dry run is
logged as a preview. -/
theorem claim_C9_dry_run_frame_witness :
    FsAction.logPreview ("./out" ++ "/subgraph.yaml") (dryRunPreview "yaml-body") ∈
      generate_subgraph_project distinctAddressConfig true "yaml-body" "schema-body"
        [("TokenA", "mapping-body")] "pkg-body" "readme-body" := by
  have h := (claim_C9_dry_run_frame distinctAddressConfig "yaml-body" "schema-body"
    [("TokenA", "mapping-body")] "pkg-body" "readme-body").2.1
  exact h ("./out" ++ "/subgraph.yaml", "yaml-body") (List.mem_cons_self _ _)

/-! ## Claim C10 -/

/-- Claim C10: at basic complexity the entity-name list a contract's
manifest data-source context carries equals, element for element, the
names of the entities the schema builder generates for that contract —
the extracted event names when the ABI yields events, and the single
`<ContractName>Event` placeholder otherwise — and also equals
`get_all_entities_for_contract`. -/
theorem claim_C10_manifest_schema_entities (contract : ContractConfig)
    (abi : Option (List AbiEntry)) (templates : Option (List TemplateConfig)) :
    (_build_contract_context contract abi "basic" templates).entities =
      (renderSchemaEntitiesForContract contract abi).map Entity.name ∧
    (_build_contract_context contract abi "basic" templates).entities =
      get_all_entities_for_contract contract abi := by
  have hbasic1 : ¬("basic" = "intermediate" ∨ "basic" = "advanced") := by decide
  have hbasic2 : ¬(("basic" : String) = "advanced") := by decide
  cases abi with
  | none =>
    constructor <;>
      simp [_build_contract_context, renderSchemaEntitiesForContract,
        get_all_entities_for_contract, _build_entity_for_contract_placeholder,
        hbasic1, hbasic2]
  | some l =>
    by_cases hl : l = []
    · subst hl
      constructor <;>
        simp [_build_contract_context, renderSchemaEntitiesForContract,
          get_all_entities_for_contract, _build_entity_for_contract_placeholder,
          extract_events, hbasic1, hbasic2]
    · by_cases hev : extract_events l = []
      · constructor <;>
          simp [_build_contract_context, renderSchemaEntitiesForContract,
            get_all_entities_for_contract, _build_entity_for_contract_placeholder,
            hbasic1, hbasic2, hl, hev]
      · constructor <;>
          simp [_build_contract_context, renderSchemaEntitiesForContract,
            get_all_entities_for_contract, _build_entity_from_event,
            hbasic1, hbasic2, hl, hev, List.map_map, Function.comp]

end SubgraphWizard
